import Mathlib

/-!
Shallow embedding of `drivers/staging/zram/zram_sysfs.c`: the sysfs
statistics-aggregation and device-control-plane layer of the zram
compressed RAM block device.

Machine integers are modelled as `Nat` (for `u64`) and `Int` (for `s64`),
with explicit reduction modulo `2^64` where the C arithmetic wraps.
External collaborators (the numeric string parsers, the page-size
constants, `zram_reset_device`) are not part of the source unit; they are
modelled from the specification and marked as such in their doc comments.
-/

namespace ZramSysfs

/-- Page shift. Modelled from the spec: the page size is the host's fixed
memory granularity; the spec's concrete examples use page size 4096. -/
def PAGE_SHIFT : Nat := 12

/-- Page size, `1 << PAGE_SHIFT`. -/
def PAGE_SIZE : Nat := 2 ^ PAGE_SHIFT

/-- Sector shift: capacities in sectors are `bytes >> SECTOR_SHIFT`. -/
def SECTOR_SHIFT : Nat := 9

/-- Modulus of unsigned 64-bit arithmetic. -/
def U64_MOD : Nat := 2 ^ 64

/-- Least signed 64-bit value. -/
def S64_MIN : Int := -(2 ^ 63)

/-- Greatest signed 64-bit value. -/
def S64_MAX : Int := 2 ^ 63 - 1

/-- Modelled from the spec: `PAGE_MASK` (`~(PAGE_SIZE-1)` as a 64-bit
mask); `&`-ing a `u64` with it "rounds the parsed value down to the
nearest page-size multiple". -/
def PAGE_MASK : Nat := U64_MOD - PAGE_SIZE

/-- Wrap an integer into the signed 64-bit range, modelling `s64`
two's-complement arithmetic. -/
def s64wrap (x : Int) : Int := (x + 2 ^ 63) % 2 ^ 64 - 2 ^ 63

/-- Reinterpret a signed 64-bit value as `u64` (the implicit conversion in
`return val;` where `val : s64` and the return type is `u64`). -/
def toU64 (x : Int) : Nat := (x % (2 ^ 64 : Int)).toNat

/-- `enum zram_stats_index` from `zram_drv.h`, as referenced by the
source unit: one index per statistic kind. -/
inductive ZramStatsIndex : Type
  | NUM_READS
  | NUM_WRITES
  | INVALID_IO
  | NOTIFY_FREE
  | DISCARD
  | PAGES_ZERO
  | PAGES_STORED
  | COMPR_SIZE
  | PAGES_EXPAND
  deriving DecidableEq, Repr

/-- One device descriptor (`struct zram`) together with the state of the
external objects the control plane touches:
* `disksize`, `init_done` — descriptor fields (`u64`, `int` used as bool);
* `stats` — the per-CPU shards: one `count` array (indexed by statistic
  kind, `s64` entries) per possible CPU;
* `mem_pool_total` — the external pool's `xv_get_total_size_bytes` value;
* `diskDev` — the handle `disk_to_dev(zram->disk)` compares against;
* `diskCapacitySectors` — the external gendisk capacity that
  `set_capacity` writes;
* `bd_holders` — result of `bdget_disk(zram->disk, 0)`: `none` models a
  NULL block device, `some h` a block device with `h` holders. -/
structure Zram where
  disksize : Nat
  init_done : Bool
  stats : List (ZramStatsIndex → Int)
  mem_pool_total : Nat
  diskDev : Nat
  diskCapacitySectors : Nat
  bd_holders : Option Nat

/-- Result of `zram_get_stat`: the `u64` return value plus whether the
`WARN_ON(val < 0)` diagnostic fired. -/
structure StatResult where
  warn : Bool
  value : Nat
  deriving DecidableEq, Repr

/-- `zram_get_stat`: iterate every per-CPU shard, read its `count[idx]`
(the seqlock retry loop yields the shard's value; in this sequential
embedding the read is direct), and accumulate into a signed 64-bit `val`.
`WARN_ON(val < 0)`, then return `val` reinterpreted as unsigned. -/
def zram_get_stat (zram : Zram) (idx : ZramStatsIndex) : StatResult :=
  let val : Int := zram.stats.foldl (fun v stats => s64wrap (v + stats idx)) 0
  { warn := decide (val < 0), value := toU64 val }

/-- The exact (unwrapped) arithmetic total of all shards for a kind. -/
def statSum (zram : Zram) (idx : ZramStatsIndex) : Int :=
  (zram.stats.map (fun stats => stats idx)).sum

/-- All partial sums of the shard list stay inside the signed 64-bit
range, so the `s64` accumulation of `zram_get_stat` never wraps. -/
def StatsOk (zram : Zram) (idx : ZramStatsIndex) : Prop :=
  ∀ n, n ≤ zram.stats.length →
    S64_MIN ≤ ((zram.stats.take n).map (fun stats => stats idx)).sum ∧
    ((zram.stats.take n).map (fun stats => stats idx)).sum ≤ S64_MAX

instance (zram : Zram) (idx : ZramStatsIndex) : Decidable (StatsOk zram idx) := by
  unfold StatsOk; infer_instance

/-- `dev_to_zram`'s loop: `zram = &zram_devices[i]; if (disk_to_dev(...)
== dev) break;` — the accumulator is the current value of the local
`zram`, initially NULL (`none`), and is returned when the loop ends. -/
def dev_to_zram_go (dev : Nat) : List Zram → Option Zram → Option Zram
  | [], zram => zram
  | z :: rest, _ => if z.diskDev = dev then some z else dev_to_zram_go dev rest (some z)

/-- `dev_to_zram`: linear scan of `zram_devices[0 .. num_devices)` for
the descriptor whose disk's device object equals `dev`. -/
def dev_to_zram (zram_devices : List Zram) (dev : Nat) : Option Zram :=
  dev_to_zram_go dev zram_devices none

/-- The negative error codes the source unit returns. -/
inductive LinuxErr : Type
  | EBUSY
  | EINVAL
  deriving DecidableEq, Repr

/-- Modelled from the spec: decimal parsing shared by `strict_strtoull`
and `strict_strtoul` (their definitions live outside this source unit):
"parses the string as an unsigned ... integer; fails on parse error".
Accepts a nonempty all-digit string, optionally terminated by a single
trailing newline, whose value is below `bound`; otherwise fails without
any side effect. -/
def stripNewline (cs : List Char) : List Char :=
  match cs.getLast? with
  | some c => if c = '\n' then cs.dropLast else cs
  | none => cs

/-- Value of a digit string, most significant digit first. -/
def decimalValue (cs : List Char) : Nat :=
  cs.foldl (fun acc c => acc * 10 + (c.toNat - 48)) 0

def parseBounded (bound : Nat) (s : String) : Option Nat :=
  if stripNewline s.data = [] then none
  else if (stripNewline s.data).all Char.isDigit then
    if decimalValue (stripNewline s.data) < bound then
      some (decimalValue (stripNewline s.data))
    else none
  else none

/-- Modelled from the spec: `strict_strtoull` — "parses the string as an
unsigned 64-bit integer; fails on parse error". -/
def strict_strtoull (s : String) : Option Nat := parseBounded U64_MOD s

/-- Modelled from the spec: `strict_strtoul` — "parses the string as an
unsigned integer flag; fails if parse fails" (`unsigned long` is 32-bit
on this kernel's target). -/
def strict_strtoul (s : String) : Option Nat := parseBounded (2 ^ 32) s

/-- `disksize_store`: refuse if `init_done`; parse the payload as `u64`;
on success round down with `PAGE_MASK` and propagate the capacity in
sectors to the gendisk via `set_capacity`. Returns the `ssize_t` result
(`.ok` for `len`, `.error` for a negative errno) paired with the
resulting device state. -/
def disksize_store (zram : Zram) (buf : String) : Except LinuxErr Unit × Zram :=
  if zram.init_done then
    (.error .EBUSY, zram)
  else
    match strict_strtoull buf with
    | none => (.error .EINVAL, zram)
    | some v =>
      let d := v &&& PAGE_MASK
      (.ok (), { zram with disksize := d, diskCapacitySectors := d >>> SECTOR_SHIFT })

/-- Modelled from the spec: `zram_reset_device` (defined in
`zram_drv.c`, outside this source unit) "must free all compressed
storage, zero all counters, clear `initialized`, zero capacity". -/
def zram_reset_device (zram : Zram) : Zram :=
  { zram with
    disksize := 0
    init_done := false
    stats := zram.stats.map (fun _ _ => 0)
    mem_pool_total := 0 }

/-- Outcome of `reset_store`: the `ssize_t` result, the resulting device
state, and whether the two external collaborators were invoked
(`fsync_bdev` and `zram_reset_device`). -/
structure ResetOut where
  ret : Except LinuxErr Unit
  zram : Zram
  flushed : Bool
  resetCalled : Bool

/-- `reset_store`: look up the block device with `bdget_disk`; test
`bdev->bd_holders` (a NULL `bdev` is dereferenced here, modelled by the
`none` outcome); parse the payload as `unsigned long`; reject a zero
flag; `if (bdev) fsync_bdev(bdev);` then call `zram_reset_device` only
if `init_done`. -/
def reset_store (zram : Zram) (buf : String) : Option ResetOut :=
  match zram.bd_holders with
  | none => none
  | some holders =>
    if holders ≠ 0 then
      some { ret := .error .EBUSY, zram := zram, flushed := false, resetCalled := false }
    else
      match strict_strtoul buf with
      | none =>
        some { ret := .error .EINVAL, zram := zram, flushed := false, resetCalled := false }
      | some do_reset =>
        if do_reset = 0 then
          some { ret := .error .EINVAL, zram := zram, flushed := false, resetCalled := false }
        else if zram.init_done then
          some { ret := .ok (), zram := zram_reset_device zram, flushed := true,
                 resetCalled := true }
        else
          some { ret := .ok (), zram := zram, flushed := true, resetCalled := false }

/-- `orig_data_size_show`: `zram_get_stat(zram, ZRAM_STAT_PAGES_STORED)
<< PAGE_SHIFT`, in unsigned 64-bit arithmetic. -/
def orig_data_size_show (zram : Zram) : Nat :=
  ((zram_get_stat zram .PAGES_STORED).value <<< PAGE_SHIFT) % U64_MOD

/-- `mem_used_total_show`: `0` unless `init_done`; otherwise the pool's
total size plus `zram_get_stat(zram, ZRAM_STAT_PAGES_EXPAND) <<
PAGE_SHIFT`, in unsigned 64-bit arithmetic. -/
def mem_used_total_show (zram : Zram) : Nat :=
  if zram.init_done then
    (zram.mem_pool_total + ((zram_get_stat zram .PAGES_EXPAND).value <<< PAGE_SHIFT)) % U64_MOD
  else 0

/-- `disksize_show`: returns `zram->disksize`. -/
def disksize_show (zram : Zram) : Nat := zram.disksize

/-- `initstate_show`: returns `zram->init_done`. -/
def initstate_show (zram : Zram) : Bool := zram.init_done

/-! ### Concrete devices used as inputs for closed instances -/

/-- A concrete uninitialized device: one zeroed shard, holderless block
object, handle 0. -/
def zD0 : Zram :=
  { disksize := 0, init_done := false, stats := [fun _ => 0],
    mem_pool_total := 0, diskDev := 0, diskCapacitySectors := 0,
    bd_holders := some 0 }

/-- `zD0` marked initialized, with a nonempty pool. -/
def zDI : Zram := { zD0 with init_done := true, mem_pool_total := 100 }

/-- `zD0` with two holders on its block object. -/
def zH2 : Zram := { zD0 with bd_holders := some 2 }

/-- `zD0` whose `bdget_disk` lookup yields NULL. -/
def zN : Zram := { zD0 with bd_holders := none }

/-- `zD0` with two shards holding 5 and -2 for every statistic. -/
def zW1 : Zram := { zD0 with stats := [fun _ => 5, fun _ => -2] }

/-- `zD0` with handle 1. -/
def zD1 : Zram := { zD0 with diskDev := 1 }

/-! ### Helper lemmas -/

lemma s64wrap_eq_self {x : Int} (h1 : S64_MIN ≤ x) (h2 : x ≤ S64_MAX) :
    s64wrap x = x := by
  unfold S64_MIN at h1
  unfold S64_MAX at h2
  unfold s64wrap
  omega

lemma foldl_s64wrap (l : List Int) (acc : Int)
    (h : ∀ n, n ≤ l.length →
      S64_MIN ≤ acc + (l.take n).sum ∧ acc + (l.take n).sum ≤ S64_MAX) :
    l.foldl (fun v t => s64wrap (v + t)) acc = acc + l.sum := by
  induction l generalizing acc with
  | nil => simp
  | cons t rest ih =>
    have h1 := h 1 (by simp)
    simp only [List.take_succ_cons, List.take_zero, List.sum_cons, List.sum_nil,
      add_zero] at h1
    rw [List.foldl_cons, s64wrap_eq_self h1.1 h1.2,
      ih (acc + t) ?_, List.sum_cons]
    · ring
    · intro n hn
      have := h (n + 1) (by simpa using Nat.succ_le_succ hn)
      simpa [List.take_succ_cons, add_assoc] using this

lemma statsOk_sum_range {zram : Zram} {idx : ZramStatsIndex}
    (h : StatsOk zram idx) :
    S64_MIN ≤ statSum zram idx ∧ statSum zram idx ≤ S64_MAX := by
  have := h zram.stats.length le_rfl
  simpa [statSum, List.take_length] using this

lemma zram_get_stat_of_ok (zram : Zram) (idx : ZramStatsIndex)
    (h : StatsOk zram idx) :
    zram_get_stat zram idx =
      { warn := decide (statSum zram idx < 0), value := toU64 (statSum zram idx) } := by
  have key : zram.stats.foldl (fun v stats => s64wrap (v + stats idx)) 0
      = statSum zram idx := by
    have hm : (zram.stats.map (fun stats => stats idx)).foldl
        (fun v t => s64wrap (v + t)) 0
        = zram.stats.foldl (fun v stats => s64wrap (v + stats idx)) 0 :=
      List.foldl_map _ _ _ _
    rw [← hm, foldl_s64wrap]
    · simp [statSum]
    · intro n hn
      have hn' : n ≤ zram.stats.length := by simpa using hn
      have := h n hn'
      simpa [List.map_take] using this
  simp [zram_get_stat, key]

lemma parseBounded_lt {b : Nat} {s : String} {n : Nat}
    (h : parseBounded b s = some n) : n < b := by
  unfold parseBounded at h
  split at h
  · exact absurd h (by simp)
  · split at h
    · split at h
      · exact (Option.some_inj.mp h) ▸ (by assumption)
      · exact absurd h (by simp)
    · exact absurd h (by simp)

lemma strict_strtoull_lt {s : String} {n : Nat}
    (h : strict_strtoull s = some n) : n < U64_MOD :=
  parseBounded_lt h

lemma land_PAGE_MASK {n : Nat} (h : n < U64_MOD) :
    n &&& PAGE_MASK = 2 ^ PAGE_SHIFT * (n / 2 ^ PAGE_SHIFT) := by
  have hps : PAGE_SHIFT = 12 := rfl
  have hmask : PAGE_MASK = 2 ^ 12 * (2 ^ 52 - 1) := by
    unfold PAGE_MASK U64_MOD PAGE_SIZE PAGE_SHIFT; norm_num
  have hdiv : n / 2 ^ (12 : Nat) = n >>> 12 := (Nat.shiftRight_eq_div_pow n 12).symm
  rw [hps, hmask, hdiv]
  apply Nat.eq_of_testBit_eq
  intro i
  rw [Nat.testBit_and, Nat.testBit_mul_pow_two, Nat.testBit_mul_pow_two,
    Nat.testBit_two_pow_sub_one, Nat.testBit_shiftRight]
  rcases Nat.lt_or_ge i 12 with hi | hi
  · have hni : ¬ (i ≥ 12) := by omega
    simp [hni]
  · have h12 : 12 + (i - 12) = i := by omega
    rcases Nat.lt_or_ge i 64 with hi64 | hi64
    · have h52 : i - 12 < 52 := by omega
      simp [hi, h12, h52, Bool.and_comm]
    · have hfalse : n.testBit i = false :=
        Nat.testBit_lt_two_pow
          (Nat.lt_of_lt_of_le h (Nat.pow_le_pow_right (by omega) hi64))
      have h52 : ¬ (i - 12 < 52) := by omega
      simp [hi, h12, h52, hfalse]

lemma toU64_of_nonneg {x : Int} (h1 : 0 ≤ x) (h2 : x ≤ S64_MAX) :
    toU64 x = x.toNat := by
  unfold toU64
  unfold S64_MAX at h2
  omega

lemma toU64_of_neg {x : Int} (h1 : S64_MIN ≤ x) (h2 : x < 0) :
    toU64 x = (2 ^ 64 + x).toNat := by
  unfold toU64
  unfold S64_MIN at h1
  omega

/-- The success path of `disksize_store`, shared by several claims. -/
lemma disksize_store_ok (zram : Zram) (buf : String) (n : Nat)
    (h1 : zram.init_done = false) (h2 : strict_strtoull buf = some n) :
    disksize_store zram buf =
      (.ok (), { zram with
        disksize := PAGE_SIZE * (n / PAGE_SIZE),
        diskCapacitySectors := PAGE_SIZE * (n / PAGE_SIZE) / 2 ^ SECTOR_SHIFT }) := by
  have hb := strict_strtoull_lt h2
  have hm := land_PAGE_MASK hb
  simp only [disksize_store, h1, Bool.false_eq_true, if_false, h2, hm,
    Nat.shiftRight_eq_div_pow, PAGE_SIZE]

/-! ### Claim theorems -/

/-- C1: for every statistic kind, `zram_get_stat` returns the exact
arithmetic total of all per-CPU shard accumulators, computed in a signed
64-bit accumulator and reinterpreted as unsigned; when the signed total
is negative the `WARN_ON` diagnostic fires but the negative total is
still returned reinterpreted as unsigned (as `2^64 + total`), never
clamped and never an error. -/
theorem zram_get_stat_sums_shards (zram : Zram) (idx : ZramStatsIndex)
    (h : StatsOk zram idx) :
    (zram_get_stat zram idx).value = toU64 (statSum zram idx) ∧
    ((zram_get_stat zram idx).warn = true ↔ statSum zram idx < 0) ∧
    (0 ≤ statSum zram idx →
      (zram_get_stat zram idx).value = (statSum zram idx).toNat) ∧
    (statSum zram idx < 0 →
      (zram_get_stat zram idx).value = (2 ^ 64 + statSum zram idx).toNat) := by
  obtain ⟨hlo, hhi⟩ := statsOk_sum_range h
  rw [zram_get_stat_of_ok zram idx h]
  refine ⟨rfl, by simp, ?_, ?_⟩
  · intro hpos
    exact toU64_of_nonneg hpos hhi
  · intro hneg
    exact toU64_of_neg hlo hneg

/-- Witness for C1 at a concrete device whose shards hold 5 and -2. -/
theorem zram_get_stat_sums_shards_witness :
    StatsOk zW1 ZramStatsIndex.NUM_READS ∧
    ((zram_get_stat zW1 ZramStatsIndex.NUM_READS).value
        = toU64 (statSum zW1 ZramStatsIndex.NUM_READS) ∧
     ((zram_get_stat zW1 ZramStatsIndex.NUM_READS).warn = true ↔
        statSum zW1 ZramStatsIndex.NUM_READS < 0) ∧
     (0 ≤ statSum zW1 ZramStatsIndex.NUM_READS →
       (zram_get_stat zW1 ZramStatsIndex.NUM_READS).value
          = (statSum zW1 ZramStatsIndex.NUM_READS).toNat) ∧
     (statSum zW1 ZramStatsIndex.NUM_READS < 0 →
       (zram_get_stat zW1 ZramStatsIndex.NUM_READS).value
          = (2 ^ 64 + statSum zW1 ZramStatsIndex.NUM_READS).toNat)) :=
  ⟨by decide, zram_get_stat_sums_shards zW1 ZramStatsIndex.NUM_READS (by decide)⟩

/-- C2: on an uninitialized device, a capacity write whose payload parses
as the 64-bit value `n` succeeds, stores `n` rounded down to the nearest
page-size multiple, and propagates that rounded capacity divided by the
sector size to the external block-device object. -/
theorem disksize_store_uninit_ok (zram : Zram) (buf : String) (n : Nat)
    (h1 : zram.init_done = false) (h2 : strict_strtoull buf = some n) :
    disksize_store zram buf =
      (.ok (), { zram with
        disksize := PAGE_SIZE * (n / PAGE_SIZE),
        diskCapacitySectors := PAGE_SIZE * (n / PAGE_SIZE) / 2 ^ SECTOR_SHIFT }) :=
  disksize_store_ok zram buf n h1 h2

/-- Witness for C2 at payload "4097": the stored capacity is 4096. -/
theorem disksize_store_uninit_ok_witness :
    zD0.init_done = false ∧ strict_strtoull "4097" = some 4097 ∧
    disksize_store zD0 "4097" =
      (.ok (), { zD0 with
        disksize := PAGE_SIZE * (4097 / PAGE_SIZE),
        diskCapacitySectors := PAGE_SIZE * (4097 / PAGE_SIZE) / 2 ^ SECTOR_SHIFT }) ∧
    (disksize_store zD0 "4097").2.disksize = 4096 ∧
    (disksize_store zD0 "4097").2.diskCapacitySectors = 8 :=
  ⟨rfl, by decide, disksize_store_uninit_ok zD0 "4097" 4097 rfl (by decide),
   by decide, by decide⟩

/-- C5: a capacity write on an initialized device fails with Busy and
leaves the descriptor unchanged; a capacity write whose payload fails to
parse fails with InvalidArgument and leaves the descriptor unchanged. -/
theorem disksize_store_error_unchanged (zram : Zram) (buf : String) :
    (zram.init_done = true →
      disksize_store zram buf = (.error .EBUSY, zram)) ∧
    (zram.init_done = false → strict_strtoull buf = none →
      disksize_store zram buf = (.error .EINVAL, zram)) := by
  constructor
  · intro h
    simp [disksize_store, h]
  · intro hinit hp
    simp [disksize_store, hinit, hp]

/-- Witness for C5: Busy on an initialized device, InvalidArgument on an
unparsable payload. -/
theorem disksize_store_error_unchanged_witness :
    disksize_store zDI "4096" = (.error .EBUSY, zDI) ∧
    disksize_store zD0 "abc" = (.error .EINVAL, zD0) :=
  ⟨(disksize_store_error_unchanged zDI "4096").1 rfl,
   (disksize_store_error_unchanged zD0 "abc").2 rfl (by decide)⟩

/-- C7 counterexample: on a device left uninitialized by the first
successful capacity write, the second capacity write does not fail with
Busy — it succeeds and replaces the stored capacity. -/
theorem disksize_store_second_write_counterexample :
    (disksize_store zD0 "4096").1 = .ok () ∧
    (disksize_store zD0 "4096").2.disksize = 4096 ∧
    (disksize_store zD0 "4096").2.init_done = false ∧
    (disksize_store (disksize_store zD0 "4096").2 "8192").1 = .ok () ∧
    (disksize_store (disksize_store zD0 "4096").2 "8192").2.disksize = 8192 :=
  ⟨rfl, by decide, by decide, rfl, by decide⟩

/-- C7 amended: a successful capacity write leaves `init_done` false, so
a second capacity write succeeds and replaces the stored capacity; the
second write fails with Busy (capacity unchanged) only when the device
has been marked initialized in the meantime by the external activation
path. -/
theorem disksize_store_second_write (zram : Zram) (buf1 buf2 : String)
    (n1 n2 : Nat) (h : zram.init_done = false)
    (p1 : strict_strtoull buf1 = some n1) (p2 : strict_strtoull buf2 = some n2) :
    (disksize_store zram buf1).1 = .ok () ∧
    (disksize_store zram buf1).2.init_done = false ∧
    (disksize_store (disksize_store zram buf1).2 buf2).1 = .ok () ∧
    (disksize_store (disksize_store zram buf1).2 buf2).2.disksize
        = PAGE_SIZE * (n2 / PAGE_SIZE) ∧
    disksize_store { (disksize_store zram buf1).2 with init_done := true } buf2
        = (.error .EBUSY,
           { (disksize_store zram buf1).2 with init_done := true }) := by
  have e1 := disksize_store_ok zram buf1 n1 h p1
  have hz1 : (disksize_store zram buf1).2.init_done = false := by
    rw [e1]; exact h
  have e2 := disksize_store_ok (disksize_store zram buf1).2 buf2 n2 hz1 p2
  refine ⟨by rw [e1], hz1, by rw [e2], by rw [e2], ?_⟩
  simp [disksize_store]

/-- Witness for C7 amended, at payloads "4096" then "8192". -/
theorem disksize_store_second_write_witness :
    (disksize_store zD0 "4096").1 = .ok () ∧
    (disksize_store zD0 "4096").2.init_done = false ∧
    (disksize_store (disksize_store zD0 "4096").2 "8192").1 = .ok () ∧
    (disksize_store (disksize_store zD0 "4096").2 "8192").2.disksize
        = PAGE_SIZE * (8192 / PAGE_SIZE) ∧
    disksize_store { (disksize_store zD0 "4096").2 with init_done := true } "8192"
        = (.error .EBUSY,
           { (disksize_store zD0 "4096").2 with init_done := true }) :=
  disksize_store_second_write zD0 "4096" "8192" 4096 8192 rfl
    (by decide) (by decide)

/-- C3: reset on a device whose block object has a nonzero holder count
fails with Busy for every payload string (the holder check precedes the
parse), leaves the descriptor unchanged, and invokes neither the flush
nor the external reset collaborator. -/
theorem reset_store_busy_holders (zram : Zram) (buf : String) (h : Nat)
    (hb : zram.bd_holders = some h) (hh : 0 < h) :
    reset_store zram buf =
      some { ret := .error .EBUSY, zram := zram,
             flushed := false, resetCalled := false } := by
  unfold reset_store
  rw [hb]
  simp [Nat.pos_iff_ne_zero.mp hh]

/-- Witness for C3: holder count 2, an unparsable payload — still Busy. -/
theorem reset_store_busy_holders_witness :
    zH2.bd_holders = some 2 ∧ 0 < 2 ∧
    reset_store zH2 "abc" =
      some { ret := .error .EBUSY, zram := zH2,
             flushed := false, resetCalled := false } :=
  ⟨rfl, by decide, reset_store_busy_holders zH2 "abc" 2 rfl (by decide)⟩

/-- C4: reset on a holderless device fails with InvalidArgument when the
payload does not parse and when the parsed flag is zero, in both cases
leaving the descriptor unchanged and invoking neither collaborator; with
a nonzero flag it flushes pending I/O and invokes the external reset
collaborator exactly when the device was initialized. -/
theorem reset_store_no_holders (zram : Zram) (buf : String)
    (hb : zram.bd_holders = some 0) :
    (strict_strtoul buf = none →
      reset_store zram buf =
        some { ret := .error .EINVAL, zram := zram,
               flushed := false, resetCalled := false }) ∧
    (strict_strtoul buf = some 0 →
      reset_store zram buf =
        some { ret := .error .EINVAL, zram := zram,
               flushed := false, resetCalled := false }) ∧
    (∀ v, strict_strtoul buf = some v → v ≠ 0 →
      reset_store zram buf =
        some { ret := .ok (),
               zram := if zram.init_done then zram_reset_device zram else zram,
               flushed := true, resetCalled := zram.init_done }) := by
  refine ⟨?_, ?_, ?_⟩
  · intro hp
    simp [reset_store, hb, hp]
  · intro hp
    simp [reset_store, hb, hp]
  · intro v hp hv
    cases hinit : zram.init_done with
    | true => simp [reset_store, hb, hp, hv, hinit]
    | false => simp [reset_store, hb, hp, hv, hinit]

/-- Witness for C4 at payloads "abc", "0" and "1" on a holderless,
uninitialized device. -/
theorem reset_store_no_holders_witness :
    reset_store zD0 "abc" =
      some { ret := .error .EINVAL, zram := zD0,
             flushed := false, resetCalled := false } ∧
    reset_store zD0 "0" =
      some { ret := .error .EINVAL, zram := zD0,
             flushed := false, resetCalled := false } ∧
    reset_store zD0 "1" =
      some { ret := .ok (),
             zram := if zD0.init_done then zram_reset_device zD0 else zD0,
             flushed := true, resetCalled := zD0.init_done } :=
  ⟨(reset_store_no_holders zD0 "abc" rfl).1 (by decide),
   (reset_store_no_holders zD0 "0" rfl).2.1 (by decide),
   (reset_store_no_holders zD0 "1" rfl).2.2 1 (by decide) (by decide)⟩

/-- C6 failing input: resolving handle 2 against a registry holding one
descriptor whose block-object handle is 1 does not return a "not found"
signal — the loop returns the last descriptor scanned. `none` is
returned only for an empty registry. -/
theorem dev_to_zram_no_match_returns_last :
    zD1.diskDev ≠ 2 ∧ dev_to_zram [zD1] 2 = some zD1 ∧
    dev_to_zram [] 2 = none :=
  ⟨by decide, rfl, rfl⟩

/-- C8: `mem_used_total` reads 0 on an uninitialized device; on an
initialized device it reads the external pool's total occupied bytes
plus the PagesExpand shard total shifted left by the page shift. -/
theorem mem_used_total_spec (zram : Zram)
    (h : StatsOk zram ZramStatsIndex.PAGES_EXPAND)
    (hnn : 0 ≤ statSum zram ZramStatsIndex.PAGES_EXPAND)
    (hfit : zram.mem_pool_total +
        ((statSum zram ZramStatsIndex.PAGES_EXPAND).toNat <<< PAGE_SHIFT)
      < U64_MOD) :
    (zram.init_done = false → mem_used_total_show zram = 0) ∧
    (zram.init_done = true →
      mem_used_total_show zram =
        zram.mem_pool_total +
          ((statSum zram ZramStatsIndex.PAGES_EXPAND).toNat <<< PAGE_SHIFT)) := by
  obtain ⟨hlo, hhi⟩ := statsOk_sum_range h
  constructor
  · intro hinit
    simp [mem_used_total_show, hinit]
  · intro hinit
    unfold mem_used_total_show
    rw [hinit, if_pos rfl, zram_get_stat_of_ok zram _ h]
    show (zram.mem_pool_total +
      toU64 (statSum zram ZramStatsIndex.PAGES_EXPAND) <<< PAGE_SHIFT) % U64_MOD = _
    rw [toU64_of_nonneg hnn hhi, Nat.mod_eq_of_lt hfit]

/-- Witness for C8: uninitialized device reads 0; initialized device
with pool total 100 and zero PagesExpand reads 100. -/
theorem mem_used_total_spec_witness :
    StatsOk zD0 ZramStatsIndex.PAGES_EXPAND ∧
    mem_used_total_show zD0 = 0 ∧
    mem_used_total_show zDI =
      zDI.mem_pool_total +
        ((statSum zDI ZramStatsIndex.PAGES_EXPAND).toNat <<< PAGE_SHIFT) :=
  ⟨by decide,
   (mem_used_total_spec zD0 (by decide) (by decide) (by decide)).1 rfl,
   (mem_used_total_spec zDI (by decide) (by decide) (by decide)).2 rfl⟩

/-- C9: `orig_data_size` reads exactly the PagesStored shard total
shifted left by the page shift. -/
theorem orig_data_size_spec (zram : Zram)
    (h : StatsOk zram ZramStatsIndex.PAGES_STORED)
    (hnn : 0 ≤ statSum zram ZramStatsIndex.PAGES_STORED)
    (hfit : (statSum zram ZramStatsIndex.PAGES_STORED).toNat <<< PAGE_SHIFT
      < U64_MOD) :
    orig_data_size_show zram =
      (statSum zram ZramStatsIndex.PAGES_STORED).toNat <<< PAGE_SHIFT := by
  obtain ⟨hlo, hhi⟩ := statsOk_sum_range h
  unfold orig_data_size_show
  rw [zram_get_stat_of_ok zram _ h]
  show (toU64 (statSum zram ZramStatsIndex.PAGES_STORED) <<< PAGE_SHIFT) % U64_MOD = _
  rw [toU64_of_nonneg hnn hhi, Nat.mod_eq_of_lt hfit]

/-- Witness for C9 at the zero PagesStored total: reads 0. -/
theorem orig_data_size_spec_witness :
    StatsOk zD0 ZramStatsIndex.PAGES_STORED ∧
    orig_data_size_show zD0 =
      (statSum zD0 ZramStatsIndex.PAGES_STORED).toNat <<< PAGE_SHIFT ∧
    orig_data_size_show zD0 = 0 :=
  ⟨by decide,
   orig_data_size_spec zD0 (by decide) (by decide) (by decide),
   by decide⟩

/-- C10: `reset_store` reads `bdev->bd_holders` before any null check,
so whenever `bdget_disk` yields NULL the operation dereferences it for
every payload (no defined outcome); whenever `bdget_disk` yields a
non-NULL object the operation has a defined outcome, so the later
`if (bdev)` guard before the flush never sees NULL and is unreachable as
a protection. -/
theorem reset_store_null_bdev_deref (zram : Zram) (buf : String) :
    (zram.bd_holders = none → reset_store zram buf = none) ∧
    (∀ h, zram.bd_holders = some h → (reset_store zram buf).isSome = true) := by
  constructor
  · intro hb
    simp [reset_store, hb]
  · intro h hb
    by_cases hz : h = 0
    · subst hz
      cases hp : strict_strtoul buf with
      | none => simp [reset_store, hb, hp]
      | some v =>
        by_cases hv : v = 0
        · simp [reset_store, hb, hp, hv]
        · cases hi : zram.init_done <;> simp [reset_store, hb, hp, hv, hi]
    · simp [reset_store, hb, hz]

/-- Witness for C10: NULL block object with payload "1" has no defined
outcome; a holderless block object does. -/
theorem reset_store_null_bdev_deref_witness :
    reset_store zN "1" = none ∧ (reset_store zD0 "1").isSome = true :=
  ⟨(reset_store_null_bdev_deref zN "1").1 rfl,
   (reset_store_null_bdev_deref zD0 "1").2 0 rfl⟩

end ZramSysfs
